import Mathlib

/-!
Verification of the Order Metrics Pipeline of `src/Extra_Kuub.py`.

The file shallowly embeds the pipeline: pandas float columns are modelled by
`PFloat` (an exact rational together with the IEEE sentinels `+inf`, `-inf`,
`nan`, which pandas produces on division by zero); text cells are Lean
`String`s; a parsed pickup date (`pd.to_datetime` with `errors="coerce"`) is
an `Option Date`, `none` standing for `NaT`.  Fallible conversions return
`Option`; `none` models a raised exception aborting the load.
-/

attribute [local semireducible] Rat.mul Rat.inv Rat.add Rat.sub

namespace ExtraKuub

/-- Model of a pandas float value: a finite (exact) rational or one of the
IEEE sentinels produced by division by zero (`inf`, `-inf`, `nan`). -/
inductive PFloat where
  | fin : ℚ → PFloat
  | pinf : PFloat
  | ninf : PFloat
  | nan : PFloat
deriving DecidableEq, Repr

/-- IEEE addition on `PFloat` (exact on finite values). -/
def padd : PFloat → PFloat → PFloat
  | .fin a, .fin b => .fin (a + b)
  | .nan, _ => .nan
  | _, .nan => .nan
  | .pinf, .ninf => .nan
  | .ninf, .pinf => .nan
  | .pinf, _ => .pinf
  | _, .pinf => .pinf
  | .ninf, _ => .ninf
  | _, .ninf => .ninf

/-- IEEE multiplication on `PFloat` (exact on finite values). -/
def pmul : PFloat → PFloat → PFloat
  | .fin a, .fin b => .fin (a * b)
  | .nan, _ => .nan
  | _, .nan => .nan
  | .pinf, .pinf => .pinf
  | .pinf, .ninf => .ninf
  | .ninf, .pinf => .ninf
  | .ninf, .ninf => .pinf
  | .pinf, .fin b => if b = 0 then .nan else if 0 < b then .pinf else .ninf
  | .fin a, .pinf => if a = 0 then .nan else if 0 < a then .pinf else .ninf
  | .ninf, .fin b => if b = 0 then .nan else if 0 < b then .ninf else .pinf
  | .fin a, .ninf => if a = 0 then .nan else if 0 < a then .ninf else .pinf

/-- IEEE division on `PFloat`: division of a nonzero finite value by zero
yields a signed infinity, `0 / 0` yields `nan` (pandas semantics for
`df["Extra m3"] / df["Volume_m3"]`). -/
def pdiv : PFloat → PFloat → PFloat
  | .fin a, .fin b =>
      if b = 0 then (if a = 0 then .nan else if 0 < a then .pinf else .ninf)
      else .fin (a / b)
  | .nan, _ => .nan
  | _, .nan => .nan
  | .pinf, .pinf => .nan
  | .pinf, .ninf => .nan
  | .ninf, .pinf => .nan
  | .ninf, .ninf => .nan
  | .fin _, .pinf => .fin 0
  | .fin _, .ninf => .fin 0
  | .pinf, .fin b => if 0 ≤ b then .pinf else .ninf
  | .ninf, .fin b => if 0 ≤ b then .ninf else .pinf

/-- IEEE strict greater-than on `PFloat`: any comparison involving `nan` is
false; `inf` is greater than every non-`nan` value except itself. -/
def pgt : PFloat → PFloat → Bool
  | .nan, _ => false
  | _, .nan => false
  | .fin a, .fin b => decide (b < a)
  | .pinf, .pinf => false
  | .pinf, _ => true
  | _, .pinf => false
  | .ninf, _ => false
  | .fin _, .ninf => true

/-- Finiteness test on `PFloat`. -/
def PFloat.isFinite : PFloat → Bool
  | .fin _ => true
  | _ => false

/-! ### Field Normalizer: `clean_to_float` (src lines 61-69)

`clean_to_float` does `astype(str)`, replaces `,` by `.`, strips every
character that is not a digit or a period (regex `[^\d\.]`), maps the empty
string to `NaN` (later `fillna(0)`), and calls `astype(float)`.
`astype(float)` raises `ValueError` — modelled by `none` — exactly when the
stripped text is nonempty and is not a Python float literal, i.e. when it
has two or more periods or consists of periods only. -/

/-- `str.replace(",", ".", regex=False)` on a cell (both are single
characters, so a character map is exact). -/
def replaceCommas (s : String) : String :=
  ⟨s.data.map (fun c => if c = ',' then '.' else c)⟩

/-- `str.replace(r"[^\d\.]", "", regex=True)`: keep digits and periods. -/
def stripNonNumeric (s : String) : String :=
  ⟨s.data.filter (fun c => c.isDigit || c = '.')⟩

/-- Numeric value of a list of decimal digit characters. -/
def natOfDigits (l : List Char) : ℕ :=
  l.foldl (fun n c => 10 * n + (c.toNat - 48)) 0

/-- Value of a Python float literal made of digits and at most one period:
integer part plus fractional part over the matching power of ten. -/
def floatValue (s : String) : ℚ :=
  let intPart := s.data.takeWhile (fun c => c ≠ '.')
  let fracPart := (s.data.dropWhile (fun c => c ≠ '.')).drop 1
  mkRat (Int.ofNat (natOfDigits intPart * 10 ^ fracPart.length + natOfDigits fracPart))
    (10 ^ fracPart.length)

/-- The `clean_to_float` conversion of one cell (src lines 61-69); `none`
models the `ValueError` raised by `astype(float)`. -/
def clean_to_float (s : String) : Option ℚ :=
  let t := stripNonNumeric (replaceCommas s)
  if t.data.isEmpty then some 0
  else if t.data.count '.' ≤ 1 && t.data.any (fun c => c.isDigit) then
    some (floatValue t)
  else none

/-! ### Dates

A parsed pickup date (`pd.to_datetime(..., errors="coerce", dayfirst=True)`,
src lines 57 and 86).  An unparseable cell coerces to `NaT`, modelled by
`none`.  The string column `Ophaaldatum` (src line 58) holds
`strftime("%d-%m-%Y")` of the parsed date; line 86 re-parses that string
day-first, recovering the same calendar date, so rows carry the parsed date
directly. -/

/-- A calendar date. -/
structure Date where
  year : ℕ
  month : ℕ
  day : ℕ
deriving DecidableEq, Repr

/-- Chronological (pandas `Timestamp`) order on dates. -/
def dateLe (a b : Date) : Bool :=
  decide (a.year < b.year) ||
    (decide (a.year = b.year) &&
      (decide (a.month < b.month) ||
        (decide (a.month = b.month) && decide (a.day ≤ b.day))))

/-- Strict chronological order on dates. -/
def dateLt (a b : Date) : Bool :=
  dateLe a b && !(decide (a = b))

/-- The decimal digit character for `n % 10`. -/
def digitChar (n : ℕ) : Char := Char.ofNat (48 + n % 10)

/-- Two-digit zero-padded field (`%d`, `%m`). -/
def pad2 (n : ℕ) : String := ⟨[digitChar (n / 10), digitChar n]⟩

/-- Four-digit zero-padded field (`%Y`). -/
def pad4 (n : ℕ) : String :=
  ⟨[digitChar (n / 1000), digitChar (n / 100), digitChar (n / 10), digitChar n]⟩

/-- `strftime("%d-%m-%Y")` (src line 58): the day-first string used as the
`Ophaaldatum` column and hence as the daily group-by key. -/
def fmtDate (d : Date) : String := pad2 d.day ++ "-" ++ pad2 d.month ++ "-" ++ pad4 d.year

/-! ### String order (Python sort order over group-by keys)

`pandas.groupby(..., sort=True)` sorts string keys the way Python compares
strings: lexicographically by code point. -/

/-- Lexicographic order on character lists by code point. -/
def lexLe : List Char → List Char → Bool
  | [], _ => true
  | _ :: _, [] => false
  | a :: as, b :: bs =>
      if a.toNat < b.toNat then true
      else if b.toNat < a.toNat then false
      else lexLe as bs

/-- Python's `≤` on strings: lexicographic by code point. -/
def strLe (a b : String) : Prop := lexLe a.data b.data = true

instance : DecidableRel strLe := fun a b => by unfold strLe; infer_instance

/-! ### Order records and the Metric Deriver (src lines 76-78, 106-107)

One row of the working table after the Field Normalizer: the three numeric
columns have passed `clean_to_float` (finite rationals), the date column has
been coerced to `Option Date`. -/

/-- A normalized order record (one row of `df`). -/
structure Order where
  locatienummer : String
  klantnaam : String
  date : Option Date
  volume : ℚ
  uitgevoerd : ℚ
  extraM3 : ℚ
deriving DecidableEq, Repr

/-- `df["Volume_m3"] = df["Volume"] / 1000` (src line 76). -/
def Volume_m3 (r : Order) : PFloat := pdiv (.fin r.volume) (.fin 1000)

/-- `df["Extra_bakken"] = df["Extra m3"] / (df["Volume"] / 1000)`
(src line 106; line 77 computes the same value via `Volume_m3`). -/
def Extra_bakken (r : Order) : PFloat := pdiv (.fin r.extraM3) (Volume_m3 r)

/-- `df["Extra_kuub"] = df["Extra m3"] + (df["Volume_m3"] * df["# uitgevoerd"])`
(src line 78). -/
def Extra_kuub (r : Order) : PFloat :=
  padd (.fin r.extraM3) (pmul (Volume_m3 r) (.fin r.uitgevoerd))

/-- `df["Totaal_bakken"] = df["# uitgevoerd"] + df["Extra_bakken"]`
(src line 107). -/
def Totaal_bakken (r : Order) : PFloat := padd (.fin r.uitgevoerd) (Extra_bakken r)

/-- The Metric Deriver applied to every row: each row is decorated with its
three derived columns; the computation is total (no row can make it raise). -/
def deriveAll (l : List Order) : List (Order × PFloat × PFloat × PFloat) :=
  l.map (fun r => (r, Extra_bakken r, Extra_kuub r, Totaal_bakken r))

/-! ### Date-range filter (src line 103) -/

/-- `df[(df["Ophaaldatum_dt"] >= start) & (df["Ophaaldatum_dt"] <= end)]`:
a `NaT` date compares false on both sides, so null-date rows are dropped. -/
def dateFilter (s e : Date) (l : List Order) : List Order :=
  l.filter (fun r =>
    match r.date with
    | some d => dateLe s d && dateLe d e
    | none => false)

/-! ### Flagging (src lines 110 and 113) -/

/-- `df_filtered_volume = df[df["Extra m3"] > min_extra_kuub]` (src line 110). -/
def df_filtered_volume (minExtraKuub : ℚ) (l : List Order) : List Order :=
  l.filter (fun r => decide (minExtraKuub < r.extraM3))

/-- `df_flagged = df_filtered_volume[df_filtered_volume["Extra_bakken"] > min_extra_bakken]`
(src line 113). -/
def df_flagged (minExtraBakken minExtraKuub : ℚ) (l : List Order) : List Order :=
  (df_filtered_volume minExtraKuub l).filter
    (fun r => pgt (Extra_bakken r) (.fin minExtraBakken))

/-! ### Group-by aggregation (src lines 133, 138, 143-152)

`groupby(key, sort=True)` followed by `sum()` is modelled as: the distinct
keys in Python string sort order, each paired with the sum of the values of
the rows carrying that key.  Rows whose key is `NaN` are dropped by pandas
before grouping. -/

/-- The distinct group keys in Python string sort order. -/
def groupKeys (l : List (String × ℚ)) : List String :=
  List.insertionSort strLe (l.map Prod.fst).dedup

/-- `groupby(key)[val].sum()`: one `(key, sum)` entry per distinct key,
keys ascending in string order. -/
def groupSum (l : List (String × ℚ)) : List (String × ℚ) :=
  (groupKeys l).map
    (fun k => (k, ((l.filter (fun p => decide (p.1 = k))).map Prod.snd).sum))

/-- `daily = df.groupby("Ophaaldatum")["Extra m3"].sum()` (src line 133):
the group key is the day-first formatted date string; `NaT` rows (whose
formatted string is `NaN`) are dropped by the group-by. -/
def daily (l : List Order) : List (String × ℚ) :=
  groupSum (l.filterMap (fun r => r.date.map (fun d => (fmtDate d, r.extraM3))))

/-- Sort-descending-by-value relation used by
`sort_values(ascending=False)` on a summed series. -/
def valDesc (p q : String × ℚ) : Prop := q.2 ≤ p.2

instance : DecidableRel valDesc := fun p q => by unfold valDesc; infer_instance

/-- `klant = df.groupby("Klantnaam")["Extra m3"].sum().sort_values(ascending=False).head(20)`
(src line 138). -/
def klant (l : List Order) : List (String × ℚ) :=
  (List.insertionSort valDesc (groupSum (l.map (fun r => (r.klantnaam, r.extraM3))))).take 20

/-- Sum of a pandas float column with `skipna=True` (`nan` entries are
skipped; infinities propagate). -/
def psum (l : List PFloat) : PFloat :=
  l.foldl (fun acc x => if x = .nan then acc else padd acc x) (.fin 0)

/-- Mean of a pandas float column with `skipna=True`: sum of the non-`nan`
entries over their count; `nan` when no entry remains. -/
def pmean (l : List PFloat) : PFloat :=
  let nn := l.filter (fun x => decide (x ≠ PFloat.nan))
  if nn.isEmpty then .nan else pdiv (psum nn) (.fin nn.length)

/-- One row of the per-location aggregate (src lines 143-152). -/
structure LocAgg where
  locatienummer : String
  aantalOrders : ℕ
  gemiddeldExtraBakken : PFloat
  totaalExtraBakken : PFloat
  totaalExtraKuub : ℚ
deriving DecidableEq, Repr

/-- Sort-descending-by-`Aantal_orders` relation
(`sort_values("Aantal_orders", ascending=False)`, src line 151). -/
def countDesc (a b : LocAgg) : Prop := b.aantalOrders ≤ a.aantalOrders

instance : DecidableRel countDesc := fun a b => by unfold countDesc; infer_instance

/-- `locatie = df_flagged.groupby("Locatienummer").agg(...)` (src lines
143-152): per distinct location, the count of non-null `Ophaaldatum`
entries, mean and sum of `Extra_bakken`, and sum of `Extra m3`, sorted
descending by order count. -/
def locatie (l : List Order) : List LocAgg :=
  let ks := List.insertionSort strLe (l.map (fun r => r.locatienummer)).dedup
  List.insertionSort countDesc (ks.map (fun k =>
    let rows := l.filter (fun r => decide (r.locatienummer = k))
    { locatienummer := k
      aantalOrders := (rows.filter (fun r => r.date.isSome)).length
      gemiddeldExtraBakken := pmean (rows.map Extra_bakken)
      totaalExtraBakken := psum (rows.map Extra_bakken)
      totaalExtraKuub := (rows.map (fun r => r.extraM3)).sum }))

/-! ### Header Locator: `read_excel_smart` (src lines 34-43) -/

/-- The sentinel column labels scanned for by `read_excel_smart`
(src line 38). -/
def sentinelLabels : List String :=
  ["Ophaaldatum", "Locatienummer", "Klantnaam", "# uitgevoerd", "Extra m3"]

/-- `any(x in row_values for x in [...])`: the row contains at least one
sentinel label as an exact cell value. -/
def rowHasSentinel (row : List String) : Bool :=
  sentinelLabels.any (fun x => row.contains x)

/-- Index of the topmost row containing a sentinel label, if any. -/
def findHeaderIdx : List (List String) → Option ℕ
  | [] => none
  | row :: rest =>
      if rowHasSentinel row then some 0 else (findHeaderIdx rest).map (· + 1)

/-- `read_excel_smart` (src lines 34-43) over the raw grid: when row `i` is
the topmost row with a sentinel label, re-read with `skiprows=i`, making row
`i` the header and the rows below it the data; otherwise fall back to
`pd.read_excel` with the first row as header.  Returns
(header row index, header cells, data rows). -/
def read_excel_smart (g : List (List String)) : ℕ × List String × List (List String) :=
  match findHeaderIdx g with
  | some i => (i, (g.drop i).headD [], g.drop (i + 1))
  | none => (0, g.headD [], g.drop 1)

/-! ### Export projection (src lines 170-181)

`df["c"] = ...` on a DataFrame appends column `c` at the end unless it is
already present.  The working table's columns are the uploaded file's
columns followed by the derived columns in the order the script assigns
them; `originele_kolommen = list(df.columns)` (src line 172) is read after
all assignments, and the export then re-appends the two derived columns
(src line 181). -/

/-- Column-assignment effect of `df[c] = ...` on the column list. -/
def addCol (cols : List String) (c : String) : List String :=
  if c ∈ cols then cols else cols ++ [c]

/-- The column assignments performed on `df`, in program order (src lines
57, 58, 76, 77, 78, 86, 87, 88, 106, 107). -/
def assignmentSeq : List String :=
  ["Ophaaldatum_dt", "Ophaaldatum", "Volume_m3", "Extra_bakken", "Extra_kuub",
    "Ophaaldatum_dt", "Ophaaldatum_nl", "Ophaaldatum_kort", "Extra_bakken",
    "Totaal_bakken"]

/-- Columns of the working table `df` (hence `originele_kolommen`,
src line 172) as a function of the uploaded file's columns. -/
def workingCols (orig : List String) : List String := assignmentSeq.foldl addCol orig

/-- Columns of `export_df = export_df[originele_kolommen + ["Extra_bakken",
"Totaal_bakken"]]` (src line 181). -/
def exportCols (orig : List String) : List String :=
  workingCols orig ++ ["Extra_bakken", "Totaal_bakken"]

/-- The required columns checked at src line 50. -/
def requiredCols : List String :=
  ["Locatienummer", "Klantnaam", "Ophaaldatum", "Volume", "# uitgevoerd", "Extra m3"]

/-! ### Helper lemmas -/

theorem lexLe_total : ∀ a b : List Char, lexLe a b = true ∨ lexLe b a = true
  | [], _ => .inl rfl
  | _ :: _, [] => .inr rfl
  | a :: as, b :: bs => by
      rcases Nat.lt_trichotomy a.toNat b.toNat with h | h | h
      · left; simp [lexLe, h]
      · rcases lexLe_total as bs with ih | ih
        · left; simp [lexLe, h, ih]
        · right; simp [lexLe, h.symm, ih]
      · right; simp [lexLe, h]

theorem lexLe_trans : ∀ a b c : List Char,
    lexLe a b = true → lexLe b c = true → lexLe a c = true
  | [], _, _ => by intro _ _; rfl
  | a :: as, [], _ => by intro h _; simp [lexLe] at h
  | a :: as, b :: bs, [] => by intro _ h; simp [lexLe] at h
  | a :: as, b :: bs, c :: cs => by
      intro h1 h2
      simp only [lexLe] at h1 h2 ⊢
      by_cases hab1 : a.toNat < b.toNat
      · by_cases hbc1 : b.toNat < c.toNat
        · simp [Nat.lt_trans hab1 hbc1]
        · by_cases hcb : c.toNat < b.toNat
          · simp [hbc1, hcb] at h2
          · have hac : a.toNat < c.toNat := by omega
            simp [hac]
      · by_cases hba : b.toNat < a.toNat
        · simp [hab1, hba] at h1
        · simp only [hab1, hba, if_false] at h1
          by_cases hbc1 : b.toNat < c.toNat
          · have hac : a.toNat < c.toNat := by omega
            simp [hac]
          · by_cases hcb : c.toNat < b.toNat
            · simp [hbc1, hcb] at h2
            · simp only [hbc1, hcb, if_false] at h2
              have hac1 : ¬ a.toNat < c.toNat := by omega
              have hca : ¬ c.toNat < a.toNat := by omega
              simp [hac1, hca, lexLe_trans as bs cs h1 h2]

instance : IsTotal String strLe :=
  ⟨fun a b => by unfold strLe; exact lexLe_total a.data b.data⟩

instance : IsTrans String strLe :=
  ⟨fun a b c => by unfold strLe; exact lexLe_trans a.data b.data c.data⟩

theorem sum_map_add {α : Type} (f g : α → ℚ) :
    ∀ l : List α, (l.map (fun x => f x + g x)).sum = (l.map f).sum + (l.map g).sum
  | [] => by simp
  | x :: t => by simp [sum_map_add f g t]; ring

theorem indicator_sum (a : String) (c : ℚ) :
    ∀ ks : List String, ks.Nodup → a ∈ ks →
      (ks.map (fun k => if a = k then c else 0)).sum = c
  | [], _, ha => absurd ha (List.not_mem_nil a)
  | k :: t, hnd, ha => by
      rcases List.mem_cons.mp ha with h | h
      · subst h
        have : ∀ x ∈ t.map (fun k => if a = k then c else 0), x = 0 := by
          intro x hx
          rcases List.mem_map.mp hx with ⟨y, hy, rfl⟩
          have : a ≠ y := fun e => (List.nodup_cons.mp hnd).1 (e ▸ hy)
          simp [this]
        simp [List.sum_eq_zero this]
      · have hne : a ≠ k := fun e => (List.nodup_cons.mp hnd).1 (e ▸ h)
        simp [hne, indicator_sum a c t (List.nodup_cons.mp hnd).2 h]

theorem fiber_sum (ks : List String) (hnd : ks.Nodup) :
    ∀ l : List (String × ℚ), (∀ p ∈ l, p.1 ∈ ks) →
      (ks.map (fun k => ((l.filter (fun p => decide (p.1 = k))).map Prod.snd).sum)).sum
        = (l.map Prod.snd).sum
  | [], _ => by simp [List.sum_eq_zero]
  | p :: t, hcov => by
      have ht := fiber_sum ks hnd t (fun q hq => hcov q (List.mem_cons_of_mem p hq))
      have hstep : ∀ k : String,
          (((p :: t).filter (fun q => decide (q.1 = k))).map Prod.snd).sum
            = (if p.1 = k then p.2 else 0)
              + ((t.filter (fun q => decide (q.1 = k))).map Prod.snd).sum := by
        intro k
        by_cases h : p.1 = k <;> simp [List.filter_cons, h]
      calc (ks.map (fun k =>
              (((p :: t).filter (fun q => decide (q.1 = k))).map Prod.snd).sum)).sum
          = (ks.map (fun k => (if p.1 = k then p.2 else 0)
              + ((t.filter (fun q => decide (q.1 = k))).map Prod.snd).sum)).sum := by
            exact congrArg List.sum (List.map_congr_left fun k _ => hstep k)
        _ = (ks.map (fun k => if p.1 = k then p.2 else 0)).sum
              + (ks.map (fun k =>
                  ((t.filter (fun q => decide (q.1 = k))).map Prod.snd).sum)).sum :=
            sum_map_add _ _ ks
        _ = p.2 + (t.map Prod.snd).sum := by
            rw [indicator_sum p.1 p.2 ks hnd (hcov p (List.mem_cons_self p t)), ht]
        _ = ((p :: t).map Prod.snd).sum := by simp

theorem groupKeys_nodup (l : List (String × ℚ)) : (groupKeys l).Nodup :=
  (List.perm_insertionSort strLe _).nodup_iff.mpr (l.map Prod.fst).nodup_dedup

theorem mem_groupKeys {l : List (String × ℚ)} {p : String × ℚ} (hp : p ∈ l) :
    p.1 ∈ groupKeys l :=
  (List.perm_insertionSort strLe _).mem_iff.mpr
    (List.mem_dedup.mpr (List.mem_map_of_mem Prod.fst hp))

/-- Conservation of totals under `groupby(...).sum()`. -/
theorem groupSum_conserves (l : List (String × ℚ)) :
    ((groupSum l).map Prod.snd).sum = (l.map Prod.snd).sum := by
  unfold groupSum
  rw [List.map_map]
  exact fiber_sum (groupKeys l) (groupKeys_nodup l) l (fun p hp => mem_groupKeys hp)

/-- The keys of `groupby(...).sum()` come out in ascending Python string
order. -/
theorem groupSum_sorted (l : List (String × ℚ)) :
    List.Sorted strLe ((groupSum l).map Prod.fst) := by
  unfold groupSum
  rw [List.map_map]
  have : (Prod.fst ∘ fun k => (k, ((l.filter (fun p => decide (p.1 = k))).map Prod.snd).sum))
      = id := rfl
  rw [this, List.map_id]
  exact List.sorted_insertionSort strLe _

/-- Strict `>` against a finite threshold is antitone in the threshold,
`nan` rows never passing and `inf` rows always passing. -/
theorem pgt_antitone {x : PFloat} {a b : ℚ} (hab : a ≤ b)
    (h : pgt x (.fin b) = true) : pgt x (.fin a) = true := by
  cases x with
  | fin q =>
      simp only [pgt, decide_eq_true_eq] at h ⊢
      exact lt_of_le_of_lt hab h
  | pinf => rfl
  | ninf => simp [pgt] at h
  | nan => simp [pgt] at h

/-- The two sequential filters of src lines 110 and 113 are one filter on
the conjunction of both threshold tests. -/
theorem df_flagged_eq_filter (tb tv : ℚ) (l : List Order) :
    df_flagged tb tv l
      = l.filter (fun r => pgt (Extra_bakken r) (.fin tb) && decide (tv < r.extraM3)) := by
  unfold df_flagged df_filtered_volume
  induction l with
  | nil => rfl
  | cons r t ih =>
      by_cases h1 : tv < r.extraM3 <;>
        by_cases h2 : pgt (Extra_bakken r) (.fin tb) = true <;>
        simp [List.filter_cons, h1, h2] at ih ⊢

theorem length_filter_mono {α : Type} (p q : α → Bool)
    (h : ∀ a, p a = true → q a = true) :
    ∀ l : List α, (l.filter p).length ≤ (l.filter q).length
  | [] => le_refl 0
  | a :: t => by
      by_cases hp : p a = true
      · simp [List.filter_cons, hp, h a hp]
        exact length_filter_mono p q h t
      · by_cases hq : q a = true <;>
          simp [List.filter_cons, hp, hq] <;>
          exact le_trans (length_filter_mono p q h t) (by simp)

/-- Every row surviving the date-range filter has a parsed (non-null)
pickup date. -/
theorem mem_dateFilter_isSome {s e : Date} {l : List Order} {r : Order}
    (h : r ∈ dateFilter s e l) : r.date.isSome = true := by
  have := (List.mem_filter.mp h).2
  cases hd : r.date with
  | some d => rfl
  | none => rw [hd] at this; simp at this

/-- Over rows that all have a parsed date, the day-aggregation key-value
pairs carry exactly the rows' extra volumes. -/
theorem filterMap_snd (l : List Order) (h : ∀ r ∈ l, r.date.isSome = true) :
    (l.filterMap (fun r => r.date.map (fun d => (fmtDate d, r.extraM3)))).map Prod.snd
      = l.map (fun r => r.extraM3) := by
  induction l with
  | nil => rfl
  | cons r t ih =>
      cases hd : r.date with
      | none =>
          have := h r (List.mem_cons_self r t)
          rw [hd] at this; simp at this
      | some d =>
          simp only [List.filterMap_cons, hd, Option.map_some']
          simp [ih fun q hq => h q (List.mem_cons_of_mem r hq)]

theorem findHeaderIdx_of_first : ∀ (g : List (List String)) (i : ℕ),
    (∀ row ∈ g.take i, rowHasSentinel row = false) →
    ∀ hi : i < g.length, rowHasSentinel (g.get ⟨i, hi⟩) = true →
    findHeaderIdx g = some i
  | [], i, _, hi => absurd hi (by simp)
  | row :: rest, 0, _, hi => by
      intro hrow
      simp only [List.get] at hrow
      simp [findHeaderIdx, hrow]
  | row :: rest, i + 1, hpre, hi => by
      intro hrow
      have hrow0 : rowHasSentinel row = false :=
        hpre row (by simp [List.take_succ_cons])
      have ih := findHeaderIdx_of_first rest i
        (fun q hq => hpre q (by simp [List.take_succ_cons, hq]))
        (Nat.lt_of_succ_lt_succ hi) hrow
      simp [findHeaderIdx, hrow0, ih]

theorem findHeaderIdx_of_none : ∀ g : List (List String),
    (∀ row ∈ g, rowHasSentinel row = false) → findHeaderIdx g = none
  | [], _ => rfl
  | row :: rest, h => by
      have h0 := h row (List.mem_cons_self row rest)
      have ih := findHeaderIdx_of_none rest (fun q hq => h q (List.mem_cons_of_mem row hq))
      simp [findHeaderIdx, h0, ih]

theorem workingCols_expand (orig : List String)
    (hreq : "Ophaaldatum" ∈ orig)
    (hdisj : ∀ c ∈ ["Ophaaldatum_dt", "Volume_m3", "Extra_bakken", "Extra_kuub",
      "Ophaaldatum_nl", "Ophaaldatum_kort", "Totaal_bakken"], c ∉ orig) :
    workingCols orig
      = orig ++ ["Ophaaldatum_dt", "Volume_m3", "Extra_bakken", "Extra_kuub",
          "Ophaaldatum_nl", "Ophaaldatum_kort", "Totaal_bakken"] := by
  have h1 := hdisj "Ophaaldatum_dt" (by simp)
  have h2 := hdisj "Volume_m3" (by simp)
  have h3 := hdisj "Extra_bakken" (by simp)
  have h4 := hdisj "Extra_kuub" (by simp)
  have h5 := hdisj "Ophaaldatum_nl" (by simp)
  have h6 := hdisj "Ophaaldatum_kort" (by simp)
  have h7 := hdisj "Totaal_bakken" (by simp)
  simp [workingCols, assignmentSeq, addCol, h1, h2, h3, h4, h5, h6, h7, hreq]

/-! ## Claims -/

/-- C1: a record lands in the flagged set iff its extra volume strictly
exceeds the minimum-extra-volume threshold and its extra-bin count strictly
exceeds the minimum-extra-bins threshold: for every input table and every
pair of thresholds the two sequential filters of src lines 110 and 113
produce exactly the set of rows passing the conjunction of both strict
threshold tests. -/
theorem C1_flagged_set (tb tv : ℚ) (l : List Order) :
    df_flagged tb tv l
        = l.filter (fun r => pgt (Extra_bakken r) (.fin tb) && decide (tv < r.extraM3))
      ∧ ∀ r : Order, r ∈ df_flagged tb tv l
          ↔ r ∈ l ∧ pgt (Extra_bakken r) (.fin tb) = true ∧ tv < r.extraM3 := by
  refine ⟨df_flagged_eq_filter tb tv l, fun r => ?_⟩
  rw [df_flagged_eq_filter, List.mem_filter]
  simp [and_assoc]

/-- C2: for every normalized row with positive bin volume the derived
fields satisfy extra_bins = extra_m3 / (volume_liters / 1000),
total_bins = planned_count + extra_bins, and total extra volume =
extra_m3 + (volume_liters / 1000) * planned_count. -/
theorem C2_derived_fields (r : Order) (h : 0 < r.volume) :
    Extra_bakken r = .fin (r.extraM3 / (r.volume / 1000))
      ∧ Totaal_bakken r = .fin (r.uitgevoerd + r.extraM3 / (r.volume / 1000))
      ∧ Extra_kuub r = .fin (r.extraM3 + (r.volume / 1000) * r.uitgevoerd) := by
  have h1000 : (1000 : ℚ) ≠ 0 := by norm_num
  have hv : r.volume / 1000 ≠ 0 := by positivity
  have hvm : Volume_m3 r = .fin (r.volume / 1000) := by simp [Volume_m3, pdiv, h1000]
  have hb : Extra_bakken r = .fin (r.extraM3 / (r.volume / 1000)) := by
    simp [Extra_bakken, hvm, pdiv, hv]
  exact ⟨hb, by simp [Totaal_bakken, hb, padd], by simp [Extra_kuub, hvm, pmul, padd]⟩

/-- C2 witness: the scenario row with volume_liters 1000, extra_m3 3 and
planned_count 2 yields extra bins 3, total bins 5, and total extra
volume 5. -/
theorem C2_derived_fields_witness :
    Extra_bakken ⟨"L1", "A", some ⟨2024, 1, 1⟩, 1000, 2, 3⟩ = .fin 3
      ∧ Totaal_bakken ⟨"L1", "A", some ⟨2024, 1, 1⟩, 1000, 2, 3⟩ = .fin 5
      ∧ Extra_kuub ⟨"L1", "A", some ⟨2024, 1, 1⟩, 1000, 2, 3⟩ = .fin 5 := by
  have h := C2_derived_fields ⟨"L1", "A", some ⟨2024, 1, 1⟩, 1000, 2, 3⟩ (by decide)
  exact ⟨by rw [h.1]; decide, by rw [h.2.1]; decide, by rw [h.2.2]; decide⟩

/-- The two-row example table: one row with a parsed pickup date and one
row (customer "B", location "L2") whose pickup-date cell failed to parse. -/
def exTable : List Order :=
  [⟨"L1", "A", some ⟨2024, 1, 5⟩, 1000, 1, 1⟩, ⟨"L2", "B", none, 1000, 1, 2⟩]

/-- C3 counterexample: the "B" row of the example table has a null pickup
date, yet it appears in neither the customer aggregate nor the location
aggregate of the pipeline (thresholds 0, full date range covering the
parsed dates): the date-range filter of src line 103 drops null-date rows
before either group-by runs, so they are not retained. -/
theorem C3_counterexample :
    (exTable.any fun r => decide (r.date = none) && decide (r.klantnaam = "B")) = true
      ∧ ((klant (dateFilter ⟨2024, 1, 5⟩ ⟨2024, 1, 5⟩ exTable)).map Prod.fst).contains "B"
          = false
      ∧ ((locatie (df_flagged 0 0 (dateFilter ⟨2024, 1, 5⟩ ⟨2024, 1, 5⟩ exTable))).map
          (fun a => a.locatienummer)).contains "L2" = false := by
  decide

/-- C3 amended: a row whose pickup-date cell fails to parse is given a null
date (the load continues), but the date-range filter excludes it from the
working set, so it is absent not only from the daily aggregation but also
from the customer aggregate and the location aggregate, which are computed
from the filtered working set. -/
theorem C3_amended (r : Order) (l : List Order) (s e : Date) (tb tv : ℚ)
    (h : r.date = none) :
    r ∉ dateFilter s e (r :: l)
      ∧ dateFilter s e (r :: l) = dateFilter s e l
      ∧ daily (dateFilter s e (r :: l)) = daily (dateFilter s e l)
      ∧ klant (dateFilter s e (r :: l)) = klant (dateFilter s e l)
      ∧ locatie (df_flagged tb tv (dateFilter s e (r :: l)))
          = locatie (df_flagged tb tv (dateFilter s e l)) := by
  have hf : dateFilter s e (r :: l) = dateFilter s e l := by
    unfold dateFilter
    rw [List.filter_cons, h]
    simp
  refine ⟨?_, hf, by rw [hf], by rw [hf], by rw [hf]⟩
  intro hmem
  have := mem_dateFilter_isSome hmem
  rw [h] at this
  simp at this

/-- C3 amended, instantiated: adding the null-date "B" row to the one-row
table changes none of the filtered set, the daily aggregate, the customer
aggregate, or the location aggregate. -/
theorem C3_amended_witness :
    (⟨"L2", "B", none, 1000, 1, 2⟩ : Order) ∉
        dateFilter ⟨2024, 1, 5⟩ ⟨2024, 1, 5⟩
          [⟨"L2", "B", none, 1000, 1, 2⟩, ⟨"L1", "A", some ⟨2024, 1, 5⟩, 1000, 1, 1⟩]
      ∧ dateFilter ⟨2024, 1, 5⟩ ⟨2024, 1, 5⟩
          [⟨"L2", "B", none, 1000, 1, 2⟩, ⟨"L1", "A", some ⟨2024, 1, 5⟩, 1000, 1, 1⟩]
          = dateFilter ⟨2024, 1, 5⟩ ⟨2024, 1, 5⟩ [⟨"L1", "A", some ⟨2024, 1, 5⟩, 1000, 1, 1⟩]
      ∧ daily (dateFilter ⟨2024, 1, 5⟩ ⟨2024, 1, 5⟩
          [⟨"L2", "B", none, 1000, 1, 2⟩, ⟨"L1", "A", some ⟨2024, 1, 5⟩, 1000, 1, 1⟩])
          = daily (dateFilter ⟨2024, 1, 5⟩ ⟨2024, 1, 5⟩
              [⟨"L1", "A", some ⟨2024, 1, 5⟩, 1000, 1, 1⟩])
      ∧ klant (dateFilter ⟨2024, 1, 5⟩ ⟨2024, 1, 5⟩
          [⟨"L2", "B", none, 1000, 1, 2⟩, ⟨"L1", "A", some ⟨2024, 1, 5⟩, 1000, 1, 1⟩])
          = klant (dateFilter ⟨2024, 1, 5⟩ ⟨2024, 1, 5⟩
              [⟨"L1", "A", some ⟨2024, 1, 5⟩, 1000, 1, 1⟩])
      ∧ locatie (df_flagged 0 0 (dateFilter ⟨2024, 1, 5⟩ ⟨2024, 1, 5⟩
          [⟨"L2", "B", none, 1000, 1, 2⟩, ⟨"L1", "A", some ⟨2024, 1, 5⟩, 1000, 1, 1⟩]))
          = locatie (df_flagged 0 0 (dateFilter ⟨2024, 1, 5⟩ ⟨2024, 1, 5⟩
              [⟨"L1", "A", some ⟨2024, 1, 5⟩, 1000, 1, 1⟩])) :=
  C3_amended ⟨"L2", "B", none, 1000, 1, 2⟩ [⟨"L1", "A", some ⟨2024, 1, 5⟩, 1000, 1, 1⟩]
    ⟨2024, 1, 5⟩ ⟨2024, 1, 5⟩ 0 0 rfl

/-- A row that passes both flagging thresholds 1 and 1 (extra volume 5 m³
in 1 m³ bins, so 5 extra bins). -/
def flaggedExampleRow : Order := ⟨"L1", "A", some ⟨2024, 1, 1⟩, 1000, 2, 5⟩

/-- C4 counterexample: with the six required columns as the uploaded
file's columns (and a nonempty flagged set), the export's column list is
not the original columns followed by exactly the two derived columns, and
it is not duplicate-free: Extra_bakken occurs twice, because
`originele_kolommen` (src line 172) is read after the derived columns were
already added to `df`. -/
theorem C4_counterexample :
    df_flagged 1 1 [flaggedExampleRow] ≠ []
      ∧ exportCols requiredCols ≠ requiredCols ++ ["Extra_bakken", "Totaal_bakken"]
      ∧ ¬ (exportCols requiredCols).Nodup
      ∧ (exportCols requiredCols).count "Extra_bakken" = 2 := by
  refine ⟨by decide, by decide, by decide, by decide⟩

/-- C4 amended: for an upload whose columns contain the required ones and
none of the derived names, the exported flagged-orders table consists of
the working table's columns — the original columns followed by the seven
derived helper columns in assignment order — and then Extra_bakken and
Totaal_bakken once more, so those two derived columns appear twice. -/
theorem C4_amended (orig : List String)
    (hreq : "Ophaaldatum" ∈ orig)
    (hdisj : ∀ c ∈ ["Ophaaldatum_dt", "Volume_m3", "Extra_bakken", "Extra_kuub",
      "Ophaaldatum_nl", "Ophaaldatum_kort", "Totaal_bakken"], c ∉ orig) :
    exportCols orig
        = orig ++ ["Ophaaldatum_dt", "Volume_m3", "Extra_bakken", "Extra_kuub",
            "Ophaaldatum_nl", "Ophaaldatum_kort", "Totaal_bakken"]
          ++ ["Extra_bakken", "Totaal_bakken"]
      ∧ (exportCols orig).count "Extra_bakken" = 2
      ∧ (exportCols orig).count "Totaal_bakken" = 2 := by
  have hw := workingCols_expand orig hreq hdisj
  have hb : orig.count "Extra_bakken" = 0 :=
    List.count_eq_zero.mpr (hdisj "Extra_bakken" (by simp))
  have ht : orig.count "Totaal_bakken" = 0 :=
    List.count_eq_zero.mpr (hdisj "Totaal_bakken" (by simp))
  refine ⟨by rw [exportCols, hw], ?_, ?_⟩ <;>
    simp [exportCols, hw, List.count_append, hb, ht, List.count_cons]

/-- C4 amended, instantiated at the required columns. -/
theorem C4_amended_witness :
    exportCols requiredCols
        = requiredCols ++ ["Ophaaldatum_dt", "Volume_m3", "Extra_bakken", "Extra_kuub",
            "Ophaaldatum_nl", "Ophaaldatum_kort", "Totaal_bakken"]
          ++ ["Extra_bakken", "Totaal_bakken"]
      ∧ (exportCols requiredCols).count "Extra_bakken" = 2
      ∧ (exportCols requiredCols).count "Totaal_bakken" = 2 :=
  C4_amended requiredCols (by decide) (by decide)

/-- A two-day filtered working set: 3 m³ extra on 2 Jan 2024 and 7 m³ extra
on 1 Feb 2024. -/
def c5Table : List Order :=
  [⟨"L1", "A", some ⟨2024, 1, 2⟩, 1000, 1, 3⟩, ⟨"L1", "A", some ⟨2024, 2, 1⟩, 1000, 1, 7⟩]

/-- C5 counterexample: the day aggregate of the filtered working set lists
1 Feb 2024 before 2 Jan 2024 — the group key is the day-first string
"dd-mm-YYYY" and "01-02-2024" sorts before "02-01-2024" — although
2 Jan 2024 is chronologically earlier, so the series is not ordered by
date ascending. -/
theorem C5_counterexample :
    daily (dateFilter ⟨2024, 1, 1⟩ ⟨2024, 12, 31⟩ c5Table)
        = [(fmtDate ⟨2024, 2, 1⟩, 7), (fmtDate ⟨2024, 1, 2⟩, 3)]
      ∧ dateLt ⟨2024, 1, 2⟩ ⟨2024, 2, 1⟩ = true := by
  decide

/-- C5 amended: the aggregation by day sums extra volume grouped by the
day-first formatted pickup-date string; its values sum to the same total
as summing extra_m3 over the filtered working set (conservation holds),
but the series is ordered lexicographically by that string key, which is
not chronological date order in general. -/
theorem C5_amended (s e : Date) (l : List Order) :
    ((daily (dateFilter s e l)).map Prod.snd).sum
        = ((dateFilter s e l).map (fun r => r.extraM3)).sum
      ∧ List.Sorted strLe ((daily (dateFilter s e l)).map Prod.fst) := by
  constructor
  · unfold daily
    rw [groupSum_conserves, filterMap_snd _ (fun r hr => mem_dateFilter_isSome hr)]
  · exact groupSum_sorted _

/-- C6 counterexample: the cell "1.234,56" — a thousands separator together
with a decimal comma — strips to "1.234.56", which `astype(float)` cannot
parse: the conversion raises instead of tolerating the separator or
treating the cell as zero. -/
theorem C6_counterexample : clean_to_float "1.234,56" = none := by decide

/-- C6 amended: each configured numeric cell is comma-to-period converted
and stripped to digits and periods; a cell stripping to the empty string
becomes zero, and a cell whose stripped text has at least one digit and at
most one period becomes that float — which tolerates whitespace, currency
symbols and other stray characters, and thousands separators in values
without a decimal part.  But a cell whose stripped text is nonempty with
two or more periods or no digit at all makes `astype(float)` raise,
aborting the load rather than yielding zero. -/
theorem C6_amended (s : String) :
    (stripNonNumeric (replaceCommas s) = "" → clean_to_float s = some 0)
      ∧ ((stripNonNumeric (replaceCommas s)).data.count '.' ≤ 1 →
          (stripNonNumeric (replaceCommas s)).data.any (fun c => c.isDigit) = true →
          clean_to_float s = some (floatValue (stripNonNumeric (replaceCommas s))))
      ∧ (stripNonNumeric (replaceCommas s) ≠ "" →
          1 < (stripNonNumeric (replaceCommas s)).data.count '.'
            ∨ (stripNonNumeric (replaceCommas s)).data.all (fun c => !c.isDigit) = true →
          clean_to_float s = none)
      ∧ ∀ c : Char, c.isDigit = false → c ≠ '.' → c ≠ ',' →
          clean_to_float ⟨c :: s.data⟩ = clean_to_float s := by
  have hdata : ∀ t : String, t.data = [] → t = "" := fun t h => by
    cases t with
    | mk d => rw [show d = [] from h]
  have hdata2 : ∀ t : String, t = "" → t.data = [] := fun t h => by rw [h]
  refine ⟨?_, ?_, ?_, ?_⟩
  · intro h
    unfold clean_to_float
    rw [if_pos (by simp [hdata2 _ h])]
  · intro h1 h2
    unfold clean_to_float
    have hne : (stripNonNumeric (replaceCommas s)).data.isEmpty = false := by
      cases hh : (stripNonNumeric (replaceCommas s)).data with
      | nil => rw [hh] at h2; simp at h2
      | cons a t => rfl
    rw [if_neg (by simp [hne]), if_pos (by simp [h1, h2])]
  · intro hne hcond
    unfold clean_to_float
    have hne2 : (stripNonNumeric (replaceCommas s)).data.isEmpty = false := by
      cases hh : (stripNonNumeric (replaceCommas s)).data with
      | nil => exact absurd (hdata _ hh) hne
      | cons a t => rfl
    rw [if_neg (by simp [hne2]), if_neg ?_]
    rcases hcond with hc | hc
    · simp [Nat.not_le_of_lt hc]
    · have : (stripNonNumeric (replaceCommas s)).data.any (fun c => c.isDigit) = false := by
        rw [List.any_eq_false]
        intro c hc2
        have := List.all_eq_true.mp hc c hc2
        simpa using this
      simp [this]
  · intro c hc1 hc2 hc3
    have heq : stripNonNumeric (replaceCommas ⟨c :: s.data⟩)
        = stripNonNumeric (replaceCommas s) := by
      unfold replaceCommas stripNonNumeric
      simp [hc1, hc2, hc3]
    unfold clean_to_float
    rw [heq]

/-- C6 amended, instantiated: "€ 1.234" (currency symbol, whitespace,
thousands separator, no decimal part) converts to 1234/1000 of a bin-volume
unit without raising, and "abc" strips to empty and becomes zero. -/
theorem C6_amended_witness :
    clean_to_float "€ 1.234" = some (617 / 500)
      ∧ clean_to_float "abc" = some 0
      ∧ clean_to_float " 7" = clean_to_float "7" := by
  refine ⟨?_, (C6_amended "abc").1 (by decide), ?_⟩
  · rw [(C6_amended "€ 1.234").2.1 (by decide) (by decide)]
    decide
  · exact (C6_amended "7").2.2.2 ' ' (by decide) (by decide) (by decide)

/-- The ten-row raw grid of the C7 scenario: its row 3 contains the
sentinel label "Ophaaldatum", rows 0-2 do not. -/
def grid10 : List (List String) :=
  [["a", "b", "c"], ["d", "e", "f"], ["g", "h", "i"], ["x", "Ophaaldatum", "y"],
   ["1", "2", "3"], ["4", "5", "6"], ["7", "8", "9"], ["10", "11", "12"],
   ["13", "14", "15"], ["16", "17", "18"]]

/-- C7: the Header Locator picks the topmost row containing one of the
sentinel column labels as the header row, the resulting table holding
exactly the rows below it; when no row contains a sentinel it falls back
to index 0 with the first row as header. -/
theorem C7_read_excel_smart (g : List (List String)) :
    (∀ (i : ℕ) (hi : i < g.length),
        (∀ row ∈ g.take i, rowHasSentinel row = false) →
        rowHasSentinel (g.get ⟨i, hi⟩) = true →
        read_excel_smart g = (i, g.get ⟨i, hi⟩, g.drop (i + 1)))
      ∧ ((∀ row ∈ g, rowHasSentinel row = false) →
          read_excel_smart g = (0, g.headD [], g.drop 1)) := by
  constructor
  · intro i hi hpre hrow
    have hfind := findHeaderIdx_of_first g i hpre hi hrow
    unfold read_excel_smart
    rw [hfind]
    show (i, (g.drop i).headD [], g.drop (i + 1)) = (i, g.get ⟨i, hi⟩, g.drop (i + 1))
    rw [List.drop_eq_getElem_cons hi]
    rfl
  · intro h
    unfold read_excel_smart
    rw [findHeaderIdx_of_none g h]

/-- C7 witness: on the ten-row grid whose row 3 contains "Ophaaldatum",
the Header Locator returns header index 3 and a table of exactly the six
remaining data rows. -/
theorem C7_read_excel_smart_witness :
    read_excel_smart grid10
        = (3, ["x", "Ophaaldatum", "y"],
            [["1", "2", "3"], ["4", "5", "6"], ["7", "8", "9"], ["10", "11", "12"],
             ["13", "14", "15"], ["16", "17", "18"]])
      ∧ grid10.length = 10
      ∧ (read_excel_smart grid10).2.2.length = 6 := by
  have h := (C7_read_excel_smart grid10).1 3 (by decide) (by decide) (by decide)
  refine ⟨?_, by decide, ?_⟩ <;> rw [h] <;> decide

/-- C8: with the input table and the extra-volume threshold fixed, raising
the extra-bins threshold can only shrink the flagged set (and symmetrically
for the extra-volume threshold): under higher thresholds every flagged row
is still flagged under lower ones, and the flagged count never increases. -/
theorem C8_flagged_antitone (l : List Order) (tb tb2 tv tv2 : ℚ)
    (hb : tb ≤ tb2) (hv : tv ≤ tv2) :
    (∀ r ∈ df_flagged tb2 tv2 l, r ∈ df_flagged tb tv l)
      ∧ (df_flagged tb2 tv2 l).length ≤ (df_flagged tb tv l).length := by
  have himp : ∀ r : Order,
      (pgt (Extra_bakken r) (.fin tb2) && decide (tv2 < r.extraM3)) = true →
      (pgt (Extra_bakken r) (.fin tb) && decide (tv < r.extraM3)) = true := by
    intro r hr
    simp only [Bool.and_eq_true, decide_eq_true_eq] at hr ⊢
    exact ⟨pgt_antitone hb hr.1, lt_of_le_of_lt hv hr.2⟩
  constructor
  · intro r hr
    rw [df_flagged_eq_filter] at hr ⊢
    rw [List.mem_filter] at hr ⊢
    exact ⟨hr.1, himp r hr.2⟩
  · rw [df_flagged_eq_filter, df_flagged_eq_filter]
    exact length_filter_mono _ _ himp l

/-- C8 witness: on a one-row table flagged at thresholds (1, 1), raising
the thresholds to (2, 1) keeps the flagged set contained and the count
non-increasing. -/
theorem C8_flagged_antitone_witness :
    (∀ r ∈ df_flagged 2 1 [flaggedExampleRow], r ∈ df_flagged 1 1 [flaggedExampleRow])
      ∧ (df_flagged 2 1 [flaggedExampleRow]).length
          ≤ (df_flagged 1 1 [flaggedExampleRow]).length :=
  C8_flagged_antitone [flaggedExampleRow] 1 2 1 1 (by decide) (by decide)

/-- C9: a row whose bin volume is zero (a missing volume cell is normalized
to zero by `clean_to_float`) gets a non-finite sentinel extra-bin count
instead of raising an error, and the Metric Deriver still processes every
row of the table (one output per input row). -/
theorem C9_zero_volume (r : Order) (h : r.volume = 0) :
    (Extra_bakken r).isFinite = false
      ∧ ∀ l : List Order, (deriveAll l).length = l.length := by
  constructor
  · have hvm : Volume_m3 r = .fin 0 := by
      simp [Volume_m3, pdiv, h, (by norm_num : (1000:ℚ) ≠ 0)]
    rw [Extra_bakken, hvm]
    rcases lt_trichotomy r.extraM3 0 with hx | hx | hx
    · simp [pdiv, PFloat.isFinite, ne_of_lt hx, not_lt_of_lt hx]
    · simp [pdiv, PFloat.isFinite, hx]
    · simp [pdiv, PFloat.isFinite, ne_of_gt hx, hx]
  · intro l
    simp [deriveAll]

/-- C9 witness: a zero-volume row with 3 m³ extra gets a non-finite
extra-bin count (in fact `inf`), and the one-row table is fully derived. -/
theorem C9_zero_volume_witness :
    (Extra_bakken ⟨"L1", "A", some ⟨2024, 1, 1⟩, 0, 1, 3⟩).isFinite = false
      ∧ (deriveAll [⟨"L1", "A", some ⟨2024, 1, 1⟩, 0, 1, 3⟩]).length = 1 := by
  have h := C9_zero_volume ⟨"L1", "A", some ⟨2024, 1, 1⟩, 0, 1, 3⟩ rfl
  exact ⟨h.1, h.2 _⟩

/-- C10: whenever the numeric normalizer succeeds, its output is
non-negative — the minus sign is stripped along with every other
non-digit, non-period character — and in particular the negative text
"-2,5" converts to its positive counterpart 5/2. -/
theorem C10_nonneg :
    (∀ (s : String) (q : ℚ), clean_to_float s = some q → 0 ≤ q)
      ∧ clean_to_float "-2,5" = some (5 / 2) := by
  constructor
  · intro s q h
    unfold clean_to_float at h
    by_cases he : (stripNonNumeric (replaceCommas s)).data.isEmpty
    · rw [if_pos he] at h
      cases h
      exact le_refl 0
    · rw [if_neg he] at h
      by_cases hc : ((stripNonNumeric (replaceCommas s)).data.count '.' ≤ 1
          && (stripNonNumeric (replaceCommas s)).data.any (fun c => c.isDigit)) = true
      · rw [if_pos hc] at h
        cases h
        unfold floatValue
        exact Rat.mkRat_nonneg (Int.ofNat_nonneg _) _
      · rw [if_neg hc] at h
        cases h
  · decide

/-- C10 witness: the non-negativity statement applied to the "-2,5" cell. -/
theorem C10_nonneg_witness : 0 ≤ (5 / 2 : ℚ) :=
  C10_nonneg.1 "-2,5" (5 / 2) (by decide)

end ExtraKuub
